import Mathlib

/-!
Verification of the Cloudflare-KV-to-DynamoDB sync lambda.

Shallow embedding of the pipeline's core components:
* the DynamoDB store client's batch-write retry loop and statistics
  (src/dynamodb_client.py),
* the Cloudflare upstream client's circuit breaker, retry loop and
  backoff delay (src/cloudflare_client.py),
* the transform/validate step (src/data_transformer.py),
* the timeout manager and connection pool staleness checks
  (src/lambda_optimizations.py),
* the orchestrating handler and its execution statistics
  (lambda_function.py, src/error_handler.py).

Network interactions are modelled by explicit environments (oracles):
a function from the index of the physical call to the provider's
response. Mutable client state is threaded explicitly.
-/

namespace CFSync

/-! ## Store client (src/dynamodb_client.py)

Items sent to the store are opaque (type parameter `α`); the provider's
behaviour on the n-th physical `batch_write_item` call is given by an
environment `env : Nat → DynamoResponse α`. -/

/-- A response of the DynamoDB provider to one physical batch write call:
either a normal response carrying the unprocessed subset, a `ClientError`
with an error code, or an unexpected exception. -/
inductive DynamoResponse (α : Type) where
  | ok (unprocessed : List α)
  | clientError (code : String)
  | otherError (msg : String)
deriving Repr

/-- `DynamoDBClient.MAX_BATCH_SIZE`. -/
def MAX_BATCH_SIZE : Nat := 25

/-- `DynamoDBClient.BASE_DELAY` (100 ms). -/
def DDB_BASE_DELAY : ℚ := 1/10

/-- `DynamoDBClient.MAX_DELAY` (60 s). -/
def DDB_MAX_DELAY : ℚ := 60

/-- `DynamoDBClient.JITTER_RANGE` (10 %). -/
def DDB_JITTER_RANGE : ℚ := 1/10

/-- `DynamoDBClient.RETRYABLE_ERRORS`. -/
def DDB_RETRYABLE_ERRORS : List String :=
  ["ProvisionedThroughputExceededException", "ThrottlingException",
   "InternalServerError", "ServiceUnavailable", "RequestLimitExceeded"]

/-- The running statistics of `DynamoDBClient` (`reset_statistics` fields). -/
structure DynStats where
  total_records_attempted : Nat
  total_records_successful : Nat
  total_records_failed : Nat
  total_write_operations : Nat
  total_retry_attempts : Nat
deriving Repr, DecidableEq

/-- Fresh statistics, as set by `reset_statistics`. -/
def DynStats.init : DynStats := ⟨0, 0, 0, 0, 0⟩

/-- `BatchWriteResult` (dynamodb_client.py, dataclass). `execution_time_ms`
is not modelled (wall-clock time). -/
structure BatchWriteResult (α : Type) where
  successful_records : Nat
  failed_records : Nat
  unprocessed_items : List α
  errors : List String
  total_attempts : Nat
deriving Repr, DecidableEq

/-- Outcome of `_write_batch_with_retry`: the returned result or the raised
`DynamoDBError`, together with the delta added to the client's
`total_retry_attempts` counter during the loop and the next global network
call index. -/
structure WBOut (α : Type) where
  result : Except String (BatchWriteResult α)
  retry_delta : Nat
  next_call : Nat
deriving Repr

/-- The `while unprocessed_items and attempt <= self.max_retries` loop of
`_write_batch_with_retry`. `attempt` is the value of the Python variable at
the top of the loop; `call` is the global index of the next physical network
call, used to consult `env`. -/
def writeBatchLoop (env : Nat → DynamoResponse α) (max_retries : Nat)
    (unprocessed : List α) (successful : Nat) (errors : List String)
    (attempt : Nat) (retry_delta : Nat) (call : Nat) : WBOut α :=
  if h : unprocessed.isEmpty ∨ max_retries < attempt then
    -- loop condition false: fall through with failed = len(unprocessed)
    ⟨.ok ⟨successful, unprocessed.length, unprocessed, errors, attempt⟩,
      retry_delta, call⟩
  else
    let attempt1 := attempt + 1
    let retry1 := retry_delta + (if 1 < attempt1 then 1 else 0)
    match env call with
    | .ok unp =>
      let succ1 := successful + (unprocessed.length - unp.length)
      if unp.isEmpty then
        -- all items processed successfully: break
        ⟨.ok ⟨succ1, 0, [], errors, attempt1⟩, retry1, call + 1⟩
      else if attempt1 ≤ max_retries then
        writeBatchLoop env max_retries unp succ1 errors attempt1 retry1 (call + 1)
      else
        -- max retries exceeded with unprocessed items: break
        ⟨.ok ⟨succ1, unp.length, unp,
            errors ++ ["Max retries exceeded with unprocessed items"], attempt1⟩,
          retry1, call + 1⟩
    | .clientError code =>
      if code ∈ DDB_RETRYABLE_ERRORS ∧ attempt1 ≤ max_retries then
        writeBatchLoop env max_retries unprocessed successful errors attempt1
          retry1 (call + 1)
      else
        ⟨.error ("Non-retryable error or max retries exceeded: " ++ code),
          retry1, call + 1⟩
    | .otherError msg =>
      ⟨.error ("Unexpected error during batch write: " ++ msg), retry1, call + 1⟩
termination_by max_retries + 1 - attempt
decreasing_by all_goals (rcases not_or.mp h with ⟨-, h2⟩; omega)

/-- `_write_batch_with_retry` on a single chunk of at most 25 items. -/
def write_batch_with_retry (env : Nat → DynamoResponse α) (max_retries : Nat)
    (items : List α) (call : Nat) : WBOut α :=
  writeBatchLoop env max_retries items 0 [] 0 0 call

/-- Python slicing `items[i:i + MAX_BATCH_SIZE]` over the whole list. -/
def chunks25 : List α → List (List α)
  | [] => []
  | x :: xs =>
    (x :: xs).take MAX_BATCH_SIZE :: chunks25 ((x :: xs).drop MAX_BATCH_SIZE)
termination_by l => l.length
decreasing_by simp [MAX_BATCH_SIZE]; omega

/-- Accumulator for the per-batch loop in `batch_write_records`. -/
structure BWAcc where
  successful : Nat
  failed : Nat
  errors : List String
  attempts : Nat
  retry_delta : Nat
  call : Nat
deriving Repr, DecidableEq

/-- The `for batch_num, batch_items in enumerate(batches)` loop body of
`batch_write_records`, including the `except DynamoDBError` handler. -/
def batchFold (env : Nat → DynamoResponse α) (max_retries : Nat)
    (acc : BWAcc) (batch : List α) : BWAcc :=
  let out := write_batch_with_retry env max_retries batch acc.call
  match out.result with
  | .ok br =>
    { successful := acc.successful + br.successful_records
      failed := acc.failed + br.failed_records +
        (if br.unprocessed_items.isEmpty then 0 else br.unprocessed_items.length)
      errors := acc.errors ++ br.errors
      attempts := acc.attempts + br.total_attempts
      retry_delta := acc.retry_delta + out.retry_delta
      call := out.next_call }
  | .error msg =>
    { successful := acc.successful
      failed := acc.failed + batch.length
      errors := acc.errors ++ ["Batch failed completely: " ++ msg]
      attempts := acc.attempts
      retry_delta := acc.retry_delta + out.retry_delta
      call := out.next_call }

/-- `DynamoDBClient.batch_write_records`. `convOk` models whether
`_record_to_dynamodb_item` succeeds on a record (it raises on oversized
items). Returns the `BatchWriteResult`, the updated client statistics and
the number of physical network write calls performed. -/
def batch_write_records (env : Nat → DynamoResponse α) (convOk : α → Bool)
    (max_retries : Nat) (records : List α) (stats : DynStats) :
    BatchWriteResult α × DynStats × Nat :=
  if records.isEmpty then
    (⟨0, 0, [], [], 0⟩, stats, 0)
  else
    let stats1 := { stats with
      total_records_attempted := stats.total_records_attempted + records.length }
    let items := records.filter convOk
    let conversion_errors :=
      (records.filter (fun r => ¬ convOk r)).map (fun _ => "Failed to convert record")
    if items.isEmpty then
      (⟨0, records.length, [], conversion_errors, 0⟩,
        { stats1 with
          total_records_failed := stats1.total_records_failed + records.length }, 0)
    else
      let batches := chunks25 items
      let acc0 : BWAcc :=
        ⟨0, records.length - items.length, conversion_errors, 0, 0, 0⟩
      let acc := batches.foldl (batchFold env max_retries) acc0
      let stats2 := { stats1 with
        total_records_successful := stats1.total_records_successful + acc.successful
        total_records_failed := stats1.total_records_failed + acc.failed
        total_write_operations := stats1.total_write_operations + batches.length
        total_retry_attempts := stats1.total_retry_attempts + acc.retry_delta }
      let accuracy_errors :=
        if acc.successful + acc.failed ≠ records.length
        then acc.errors ++ ["Storage accuracy error"] else acc.errors
      (⟨acc.successful, acc.failed, [], accuracy_errors, acc.attempts⟩,
        stats2, acc.call)

/-- `DynamoDBClient._calculate_retry_delay`. `r` is the draw of
`random.random()`, a value in `[0, 1)`. -/
def ddb_calculate_retry_delay (attempt : Nat) (r : ℚ) : ℚ :=
  let delay := DDB_BASE_DELAY * 2 ^ (attempt - 1)
  let delay := min delay DDB_MAX_DELAY
  let jitter := delay * DDB_JITTER_RANGE * (2 * r - 1)
  let delay := delay + jitter
  max delay (1/100)

/-! ## Upstream client (src/cloudflare_client.py) -/

/-- `CircuitBreakerState` (enum). `opened` stands for Python's `OPEN`
(`open` is a Lean keyword). -/
inductive CircuitBreakerState where
  | closed
  | opened
  | halfOpen
deriving Repr, DecidableEq

/-- The mutable state of `CircuitBreaker`. Time stamps are rationals
(Python `time.time()` floats). -/
structure CircuitBreaker where
  failure_threshold : Nat
  recovery_timeout : ℚ
  failure_count : Nat
  last_failure_time : Option ℚ
  state : CircuitBreakerState
  success_count : Nat
deriving Repr, DecidableEq

/-- `CircuitBreaker.__init__` with defaults `failure_threshold=5`,
`recovery_timeout=60`. -/
def CircuitBreaker.init (failure_threshold : Nat := 5)
    (recovery_timeout : ℚ := 60) : CircuitBreaker :=
  ⟨failure_threshold, recovery_timeout, 0, none, .closed, 0⟩

/-- `CircuitBreaker._should_attempt_reset`, evaluated at time `now`. -/
def CircuitBreaker.should_attempt_reset (cb : CircuitBreaker) (now : ℚ) : Bool :=
  match cb.last_failure_time with
  | none => true
  | some t => now - t ≥ cb.recovery_timeout

/-- `CircuitBreaker._on_success`. -/
def CircuitBreaker.on_success (cb : CircuitBreaker) : CircuitBreaker :=
  if cb.state = .halfOpen then
    let sc := cb.success_count + 1
    if sc ≥ 3 then
      { cb with state := .closed, failure_count := 0, success_count := 0 }
    else
      { cb with success_count := sc }
  else
    { cb with failure_count := 0 }

/-- `CircuitBreaker._on_failure`, with the failure happening at time `now`. -/
def CircuitBreaker.on_failure (cb : CircuitBreaker) (now : ℚ) : CircuitBreaker :=
  let cb := { cb with
    failure_count := cb.failure_count + 1
    last_failure_time := some now
    success_count := 0 }
  if cb.failure_count ≥ cb.failure_threshold then
    { cb with state := .opened }
  else
    cb

/-- Result of `CircuitBreaker.call`: whether the wrapped function was
invoked (when `false`, the "Circuit breaker is OPEN" error was raised
instead), and the circuit breaker state afterwards. The wrapped function's
outcome is the boolean `funcOutcome` (`true` = returned, `false` = raised),
and the call happens at time `now`. -/
def CircuitBreaker.call (cb : CircuitBreaker) (now : ℚ) (funcOutcome : Bool) :
    Bool × CircuitBreaker :=
  if cb.state = .opened ∧ ¬ cb.should_attempt_reset now then
    (false, cb)
  else
    let cb := if cb.state = .opened then { cb with state := .halfOpen } else cb
    if funcOutcome then
      (true, cb.on_success)
    else
      (true, cb.on_failure now)

/-- `RetryConfig` with its defaults. -/
structure RetryConfig where
  max_attempts : Nat := 3
  base_delay : ℚ := 1
  max_delay : ℚ := 60
  jitter : Bool := true
deriving Repr, DecidableEq

/-- `CloudflareClient._calculate_retry_delay` (0-based `attempt`); `r` is the
draw of `random.random()`, a value in `[0, 1)`. -/
def cf_calculate_retry_delay (cfg : RetryConfig) (attempt : Nat) (r : ℚ) : ℚ :=
  let delay := cfg.base_delay * 2 ^ attempt
  let delay := min delay cfg.max_delay
  if cfg.jitter then
    let jitter := delay * (1/4) * r
    delay + jitter
  else
    delay

/-- The pre-jitter part of `_calculate_retry_delay`:
`min(base_delay * 2 ** attempt, max_delay)`. -/
def cf_base_retry_delay (cfg : RetryConfig) (attempt : Nat) : ℚ :=
  min (cfg.base_delay * 2 ^ attempt) cfg.max_delay

/-- Outcome of one attempt of the wrapped request function, as classified by
`_handle_response`: a successful response, a `CloudflareAuthenticationError`
(HTTP 401/403), a `CloudflareRateLimitError` (HTTP 429, with the parsed
`Retry-After` value), or a `CloudflareAPIError` with an optional HTTP status
(network errors and timeouts carry `status_code=None`). -/
inductive CFOutcome (α : Type) where
  | success (a : α)
  | authError
  | rateLimit (retry_after : Option ℚ)
  | apiError (status : Option Nat)
deriving Repr

/-- The error finally raised by `_execute_with_retries`. -/
inductive CFError where
  | authError
  | rateLimit (retry_after : Option ℚ)
  | apiError (status : Option Nat)
  | allRetriesExhausted
deriving Repr, DecidableEq

/-- The non-retryable-client-error test of the retry loop:
`e.status_code and 400 <= e.status_code < 500 and e.status_code != 429`
(a `None` status is falsy and therefore retryable). -/
def nonRetryableStatus : Option Nat → Bool
  | none => false
  | some c => ¬ c = 0 ∧ 400 ≤ c ∧ c < 500 ∧ ¬ c = 429

/-- The `for attempt in range(self.retry_config.max_attempts)` loop of
`_execute_with_retries`, started at iteration `attempt`. `outcomes i` is
what the wrapped function does on its `i`-th invocation (0-based). Returns
the result (or raised error) and the total number of attempts made. -/
def cfRetryFrom (outcomes : Nat → CFOutcome α) (max_attempts attempt : Nat) :
    Except CFError α × Nat :=
  if max_attempts ≤ attempt then
    -- the loop range is exhausted without `return` or `raise`; this is
    -- reachable only with `max_attempts = 0`, where no error was recorded
    (.error .allRetriesExhausted, attempt)
  else
    match outcomes attempt with
    | .success a => (.ok a, attempt + 1)
    | .authError => (.error .authError, attempt + 1)
    | .rateLimit ra =>
      if attempt < max_attempts - 1 then
        cfRetryFrom outcomes max_attempts (attempt + 1)
      else
        (.error (.rateLimit ra), attempt + 1)
    | .apiError status =>
      if nonRetryableStatus status then
        (.error (.apiError status), attempt + 1)
      else if attempt < max_attempts - 1 then
        cfRetryFrom outcomes max_attempts (attempt + 1)
      else
        (.error (.apiError status), attempt + 1)
termination_by max_attempts - attempt

/-- `_execute_with_retries` (the inner function of
`_execute_with_retry_and_circuit_breaker`). -/
def execute_with_retries (outcomes : Nat → CFOutcome α) (max_attempts : Nat) :
    Except CFError α × Nat :=
  cfRetryFrom outcomes max_attempts 0

/-! ## Transform / validate (src/data_transformer.py)

Python run-time values that can appear as a Cloudflare KV value or inside
metadata are modelled by the inductive `PyValue` (JSON-decoded data:
null, bool, int, str, list, dict; floats are not modelled). -/

/-- A dynamically-typed Python value. -/
inductive PyValue where
  | none
  | bool (b : Bool)
  | int (n : Int)
  | str (s : String)
  | list (xs : List PyValue)
  | dict (xs : List (String × PyValue))
deriving Repr

/-- Python truthiness of a `PyValue`. -/
def pyTruthy : PyValue → Bool
  | .none => false
  | .bool b => b
  | .int n => decide (n ≠ 0)
  | .str s => !s.isEmpty
  | .list xs => !xs.isEmpty
  | .dict xs => !xs.isEmpty

/-- `type(value).__name__` for a `PyValue`. -/
def pyTypeName : PyValue → String
  | .none => "NoneType"
  | .bool _ => "bool"
  | .int _ => "int"
  | .str _ => "str"
  | .list _ => "list"
  | .dict _ => "dict"

/-- A single-quote character, used by Python `repr` of strings. -/
def singleQuote : String := String.singleton (Char.ofNat 39)

mutual

/-- Python `repr` of a value (escaping inside string reprs is not
modelled; it does not affect any verified property). -/
def pyRepr : PyValue → String
  | .none => "None"
  | .bool b => if b then "True" else "False"
  | .int n => toString n
  | .str s => singleQuote ++ s ++ singleQuote
  | .list xs => "[" ++ pyReprList xs ++ "]"
  | .dict xs => "\x7b" ++ pyReprDict xs ++ "\x7d"

/-- Comma-separated reprs of list elements. -/
def pyReprList : List PyValue → String
  | [] => ""
  | [x] => pyRepr x
  | x :: y :: xs => pyRepr x ++ ", " ++ pyReprList (y :: xs)

/-- Comma-separated `key: value` reprs of dict entries. -/
def pyReprDict : List (String × PyValue) → String
  | [] => ""
  | [(k, v)] => pyRepr (.str k) ++ ": " ++ pyRepr v
  | (k, v) :: y :: xs =>
    pyRepr (.str k) ++ ": " ++ pyRepr v ++ ", " ++ pyReprDict (y :: xs)

end

/-- Python `str()` of a value. -/
def pyStr : PyValue → String
  | .str s => s
  | v => pyRepr v

/-- JSON string quoting as done by `json.dumps` (escapes quotes and
backslashes; control-character escapes are not modelled). -/
def jsonQuote (s : String) : String :=
  "\"" ++ String.join (s.toList.map fun c =>
    if c = Char.ofNat 34 then "\\\""
    else if c = Char.ofNat 92 then "\\\\"
    else String.singleton c) ++ "\""

mutual

/-- `json.dumps(value, default=str)` with the default separators
`(", ", ": ")`. On `PyValue` every constructor is JSON-native, so
serialization is total and the source's `str()` fallback branch
(taken only on serialization failure) is unreachable. -/
def jsonDumps : PyValue → String
  | .none => "null"
  | .bool b => if b then "true" else "false"
  | .int n => toString n
  | .str s => jsonQuote s
  | .list xs => "[" ++ jsonDumpsList xs ++ "]"
  | .dict xs => "\x7b" ++ jsonDumpsDict xs ++ "\x7d"

/-- Comma-separated JSON of list elements. -/
def jsonDumpsList : List PyValue → String
  | [] => ""
  | [x] => jsonDumps x
  | x :: y :: xs => jsonDumps x ++ ", " ++ jsonDumpsList (y :: xs)

/-- Comma-separated `"key": value` JSON of dict entries. -/
def jsonDumpsDict : List (String × PyValue) → String
  | [] => ""
  | [(k, v)] => jsonQuote k ++ ": " ++ jsonDumps v
  | (k, v) :: y :: xs =>
    jsonQuote k ++ ": " ++ jsonDumps v ++ ", " ++ jsonDumpsDict (y :: xs)

end

/-- The string the transformer stores as the record's `value`:
null maps to `""`, a string is kept, anything else is JSON-serialized
(`json.dumps(value, default=str)`, total on `PyValue`). -/
def coerceValue : PyValue → String
  | .none => ""
  | .str s => s
  | v => jsonDumps v

/-- Python `dict` assignment `m[k] = v`: replaces the value in place if the
key exists (insertion order preserved), else appends. -/
def dictSet (m : List (String × PyValue)) (k : String) (v : PyValue) :
    List (String × PyValue) :=
  if m.any (fun p => p.1 = k) then
    m.map (fun p => if p.1 = k then (k, v) else p)
  else
    m ++ [(k, v)]

/-- Python `dict.update`. -/
def dictUpdate (m : List (String × PyValue)) :
    List (String × PyValue) → List (String × PyValue)
  | [] => m
  | (k, v) :: rest => dictUpdate (dictSet m k v) rest

/-- Python `dict` lookup (`m.get(k)`): the value of the first entry whose
key is `k` (keys are unique in a Python dict). -/
def dictGet : List (String × PyValue) → String → Option PyValue
  | [], _ => Option.none
  | p :: rest, k => if p.1 = k then Option.some p.2 else dictGet rest k

/-- `CloudflareKey` (cloudflare_client.py dataclass). -/
structure CloudflareKey where
  name : String
  expiration : Option Int := Option.none
  metadata : Option (List (String × PyValue)) := Option.none
deriving Repr

/-- `DynamoDBRecord` (data_transformer.py dataclass). The `value` field is
kept dynamically typed (`PyValue`) so that "the produced value is always a
string" is a property of the transform, not of the embedding. -/
structure DynamoDBRecord where
  pk : String
  sk : String
  key_name : String
  value : PyValue
  metadata : List (String × PyValue)
  retrieved_at : String
  ttl : Option Int
  source : String
  namespace_id : String
  data_version : String
deriving Repr

/-- `DataTransformer.DATA_VERSION`. -/
def DATA_VERSION : String := "1.0"

/-- `DataTransformer.SOURCE`. -/
def SOURCE : String := "cloudflare_kv"

/-- `DataTransformer.MAX_DYNAMODB_ITEM_SIZE` (400 KiB). -/
def MAX_DYNAMODB_ITEM_SIZE : Nat := 400 * 1024

/-- `DataTransformer.transform_kv_record`. `ts` is the freshly generated
ISO timestamp (`datetime.now(timezone.utc).isoformat()`), passed
explicitly because the embedding has no clock. -/
def transform_kv_record (namespace_id ts key : String) (value : PyValue)
    (ckm : Option CloudflareKey) : DynamoDBRecord :=
  let pk := "cf_kv#" ++ key
  let sk := ts
  let value_str := coerceValue value
  let mdTtl : List (String × PyValue) × Option Int :=
    match ckm with
    | Option.none => ([], Option.none)
    | Option.some k =>
      let md0 : List (String × PyValue) :=
        match k.metadata with
        | Option.some m => if m.isEmpty then [] else dictUpdate [] m
        | Option.none => []
      match k.expiration with
      | Option.some e =>
        if e ≠ 0 then
          (dictSet md0 "cloudflare_expiration" (.int e), Option.some e)
        else (md0, Option.none)
      | Option.none => (md0, Option.none)
  let metadata := dictUpdate mdTtl.1
    [("transformed_at", .str ts),
     ("original_type", .str (pyTypeName value)),
     ("value_length", .int (value_str.length : Int))]
  { pk := pk
    sk := sk
    key_name := key
    value := .str value_str
    metadata := metadata
    retrieved_at := ts
    ttl := mdTtl.2
    source := SOURCE
    namespace_id := namespace_id
    data_version := DATA_VERSION }

mutual

/-- One value's contribution in `_estimate_dict_size`. The source tests
`isinstance(value, (int, float))` before `isinstance(value, bool)`; since
Python `bool` is a subclass of `int`, a bool contributes 8 bytes and the
`size += 1` branch is dead. `None` falls to the final `else` and
contributes `len(str(None))` = 4. -/
def estimateEntrySize : PyValue → Nat
  | .str s => s.utf8ByteSize
  | .int _ => 8
  | .bool _ => 8
  | .dict xs => estimate_dict_size xs
  | .list xs => estimateListSize xs
  | .none => (pyStr .none).utf8ByteSize

/-- The `isinstance(value, list)` branch of `_estimate_dict_size`. -/
def estimateListSize : List PyValue → Nat
  | [] => 0
  | x :: xs =>
    (match x with
     | .str s => s.utf8ByteSize
     | v => (pyStr v).utf8ByteSize) + estimateListSize xs

/-- `DataTransformer._estimate_dict_size`. -/
def estimate_dict_size : List (String × PyValue) → Nat
  | [] => 0
  | (k, v) :: rest => k.utf8ByteSize + estimateEntrySize v + estimate_dict_size rest

end

/-- One string attribute's contribution in `_estimate_item_size`
(skipped when falsy). -/
def strAttrSize (name val : String) : Nat :=
  if val.isEmpty then 0 else name.utf8ByteSize + val.utf8ByteSize

/-- `DataTransformer._estimate_item_size`. -/
def estimate_item_size (r : DynamoDBRecord) : Nat :=
  strAttrSize "pk" r.pk + strAttrSize "sk" r.sk +
    strAttrSize "key_name" r.key_name +
    (if pyTruthy r.value then
      ("value" : String).utf8ByteSize + (pyStr r.value).utf8ByteSize
     else 0) +
    strAttrSize "retrieved_at" r.retrieved_at +
    strAttrSize "source" r.source +
    strAttrSize "namespace_id" r.namespace_id +
    strAttrSize "data_version" r.data_version +
    (match r.ttl with
     | Option.some _ => ("ttl" : String).utf8ByteSize + 8
     | Option.none => 0) +
    ("metadata" : String).utf8ByteSize + estimate_dict_size r.metadata

mutual

/-- The recursive `validate_value` helper of
`_validate_metadata_for_dynamodb`. Its only failure branch rejects
non-string dict keys, which the embedding makes unrepresentable (dict
keys are typed `String`), so the walk always succeeds. -/
def validate_value : PyValue → Except String Unit
  | .none => .ok ()
  | .str _ => .ok ()
  | .int _ => .ok ()
  | .bool _ => .ok ()
  | .dict xs => validate_dict_entries xs
  | .list xs => validate_list_items xs

/-- Iteration over dict entries inside `validate_value`; a raise from any
entry propagates. -/
def validate_dict_entries : List (String × PyValue) → Except String Unit
  | [] => .ok ()
  | (_, v) :: rest =>
    match validate_value v with
    | .error e => .error e
    | .ok _ => validate_dict_entries rest

/-- Iteration over list items inside `validate_value`; a raise from any
item propagates. -/
def validate_list_items : List PyValue → Except String Unit
  | [] => .ok ()
  | v :: rest =>
    match validate_value v with
    | .error e => .error e
    | .ok _ => validate_list_items rest

end

/-- `DataTransformer._validate_metadata_for_dynamodb`. -/
def validate_metadata_for_dynamodb (metadata : List (String × PyValue)) :
    Except String Unit :=
  validate_value (.dict metadata)

/-- `DataTransformer._validate_dynamodb_constraints`. -/
def validate_dynamodb_constraints (r : DynamoDBRecord) : Except String Unit :=
  if estimate_item_size r > MAX_DYNAMODB_ITEM_SIZE then
    .error "Record size exceeds DynamoDB limit"
  else if r.pk.utf8ByteSize > 2048 then
    .error "Primary key exceeds DynamoDB 2KB limit"
  else if r.sk.utf8ByteSize > 1024 then
    .error "Sort key exceeds DynamoDB 1KB limit"
  else
    validate_metadata_for_dynamodb r.metadata

/-- `DataTransformer.validate_record`: returns `.ok true` or the raised
`DataValidationError`, with the source's check order preserved.
String-typed required fields cannot be `None` in the embedding; for the
dynamically-typed `value` field the `is None` required-field check is
modelled explicitly. -/
def validate_record (r : DynamoDBRecord) : Except String Bool :=
  match r.value with
  | PyValue.none => .error "Missing required field: value"
  | _ =>
    if r.pk.isEmpty then
      .error "Primary key (pk) must be a non-empty string"
    else if r.sk.isEmpty then
      .error "Sort key (sk) must be a non-empty string"
    else if r.key_name.isEmpty then
      .error "Key name must be a non-empty string"
    else
      match r.value with
      | PyValue.str _ =>
        if r.source ≠ SOURCE then
          .error "Source mismatch"
        else if r.namespace_id.isEmpty then
          .error "Namespace ID must be a non-empty string"
        else if r.data_version.isEmpty then
          .error "Data version must be a non-empty string"
        else
          match validate_dynamodb_constraints r with
          | .error e => .error e
          | .ok _ => .ok true
      | _ => .error "Value must be a string"

/-! ## Lambda optimizations (src/lambda_optimizations.py) -/

/-- `TimeoutManager.check_timeout`, as a function of the current value of
`get_remaining_time_in_millis()` and the configured buffer: true when
`remaining_ms / 1000 <= buffer_seconds` (operations must stop). A zero or
negative remaining time therefore reports a timeout for every nonnegative
buffer. -/
def check_timeout (remaining_ms : Int) (buffer_seconds : ℚ) : Bool :=
  (remaining_ms : ℚ) / 1000 ≤ buffer_seconds

/-- `CloudflareCredentials` (config.py dataclass). -/
structure CloudflareCredentials where
  api_token : String
  account_id : String
  kv_namespace_id : String
  kv_namespace : String
deriving Repr, DecidableEq

/-- The construction parameters captured by a built `CloudflareClient`
that the pool's staleness check can observe: `credentials`, `timeout`, and
the retry configuration's `max_attempts` (built from
`config['retry_max_attempts']`). -/
structure CFClientState where
  credentials : CloudflareCredentials
  timeout : Int
  retry_max_attempts : Nat
deriving Repr, DecidableEq

/-- The construction parameters captured by a built `DynamoDBClient`. -/
structure DDBClientState where
  table_name : String
  max_retries : Nat
deriving Repr, DecidableEq

/-- `DynamoDBClient.__init__`: `self.max_retries = max_retries or
self.DEFAULT_MAX_RETRIES` (a zero argument is falsy and falls back to the
default 3). -/
def dynamodb_client_init (table_name : String) (max_retries : Nat) :
    DDBClientState :=
  ⟨table_name, if max_retries = 0 then 3 else max_retries⟩

/-- The configuration dictionary fields consulted by `ConnectionPool`. -/
structure PoolConfig where
  cloudflare_credentials : CloudflareCredentials
  api_timeout_seconds : Int
  retry_max_attempts : Nat
  dynamodb_table_name : String
deriving Repr, DecidableEq

/-- `ConnectionPool._should_recreate_cloudflare_client`. Note: it compares
the three credential fields and the timeout, but not the retry
configuration. -/
def should_recreate_cloudflare_client (cached : Option CFClientState)
    (cfg : PoolConfig) : Bool :=
  match cached with
  | Option.none => true
  | Option.some c =>
    c.credentials.api_token ≠ cfg.cloudflare_credentials.api_token ∨
    c.credentials.account_id ≠ cfg.cloudflare_credentials.account_id ∨
    c.credentials.kv_namespace_id ≠ cfg.cloudflare_credentials.kv_namespace_id ∨
    c.timeout ≠ cfg.api_timeout_seconds

/-- `ConnectionPool._should_recreate_dynamodb_client`. -/
def should_recreate_dynamodb_client (cached : Option DDBClientState)
    (cfg : PoolConfig) : Bool :=
  match cached with
  | Option.none => true
  | Option.some c =>
    c.table_name ≠ cfg.dynamodb_table_name ∨
    c.max_retries ≠ cfg.retry_max_attempts

/-- `ConnectionPool.get_cloudflare_client`: returns the client in the slot
afterwards and whether the cached instance was reused (`false` = a new one
was built from `cfg`). -/
def get_cloudflare_client (cached : Option CFClientState) (cfg : PoolConfig) :
    CFClientState × Bool :=
  match cached with
  | Option.none =>
    (⟨cfg.cloudflare_credentials, cfg.api_timeout_seconds, cfg.retry_max_attempts⟩,
      false)
  | Option.some c =>
    if should_recreate_cloudflare_client (Option.some c) cfg then
      (⟨cfg.cloudflare_credentials, cfg.api_timeout_seconds, cfg.retry_max_attempts⟩,
        false)
    else
      (c, true)

/-- `ConnectionPool.get_dynamodb_client`. -/
def get_dynamodb_client (cached : Option DDBClientState) (cfg : PoolConfig) :
    DDBClientState × Bool :=
  match cached with
  | Option.none =>
    (dynamodb_client_init cfg.dynamodb_table_name cfg.retry_max_attempts, false)
  | Option.some c =>
    if should_recreate_dynamodb_client (Option.some c) cfg then
      (dynamodb_client_init cfg.dynamodb_table_name cfg.retry_max_attempts, false)
    else
      (c, true)

/-! ## Orchestrating handler (lambda_function.py, src/error_handler.py) -/

/-- The fields of `ExecutionStatistics` (error_handler.py) that the handler
updates; all start at 0. `records_failed` is among them: the handler never
calls `update_statistics(records_failed=...)` anywhere. -/
structure ExecutionStatistics where
  cloudflare_api_calls : Nat := 0
  dynamodb_writes : Nat := 0
  records_processed : Nat := 0
  records_stored : Nat := 0
  records_failed : Nat := 0
deriving Repr, DecidableEq

/-- `ExecutionStatistics.get_success_rate`:
`records_stored / records_processed`, 0.0 when nothing was processed. -/
def get_success_rate (s : ExecutionStatistics) : ℚ :=
  if s.records_processed = 0 then 0
  else (s.records_stored : ℚ) / (s.records_processed : ℚ)

/-- Outcome of `cloudflare_client.get_value` as seen by the handler's
`try` block, after the envelope check at lambda_function.py:203: a value
whose response had `success=True` and no errors, a propagated
authentication error, or a propagated API/rate-limit error with the
retryability computed at lambda_function.py:227. -/
inductive FetchOutcome where
  | ok (value : PyValue)
  | authError
  | apiFailure (is_retryable : Bool)
deriving Repr

/-- A structured handler response: `create_error_response` (with the error
category and `is_retryable` flag) or `create_success_response`; both carry
the execution statistics. -/
inductive LambdaResponse where
  | errorResp (category : String) (is_retryable : Bool)
      (stats : ExecutionStatistics)
  | successResp (stats : ExecutionStatistics)
deriving Repr, DecidableEq

/-- The top-level `success` field of the returned dictionary. -/
def LambdaResponse.success : LambdaResponse → Bool
  | .errorResp _ _ _ => false
  | .successResp _ => true

/-- The `statistics` field of the returned dictionary. -/
def LambdaResponse.stats : LambdaResponse → ExecutionStatistics
  | .errorResp _ _ s => s
  | .successResp s => s

/-- The environment of one handler invocation: the (constant) value of the
context's remaining-time function, whether configuration loading succeeds,
the event's key name, the namespace id, the generated timestamp, the
upstream fetch outcome, and the store provider behaviour consumed by
`batch_write_records` (`storeEnv`, `conv`, `max_retries`). -/
structure HandlerEnv where
  remaining_ms : Int
  config_ok : Bool
  key_name : String
  namespace_id : String
  ts : String
  fetch : FetchOutcome
  storeEnv : Nat → DynamoResponse DynamoDBRecord
  conv : DynamoDBRecord → Bool
  max_retries : Nat

/-- `lambda_handler` (lambda_function.py): the stage sequence with its
timeout gates (`timeout_context` checks `check_timeout` once on entry, with
the 30-second buffer set in `optimize_lambda_execution`), the fetch,
transform+validate, and store stages. Returns the response and the number
of physical store write calls performed. Client initialization failures
other than configuration loading are not modelled (no claim concerns
them). -/
def lambda_handler (env : HandlerEnv) : LambdaResponse × Nat :=
  let stats0 : ExecutionStatistics := {}
  -- Step 1: load_configuration gate
  if check_timeout env.remaining_ms 30 then (.errorResp "timeout" true stats0, 0)
  else if !env.config_ok then (.errorResp "configuration" false stats0, 0)
  -- Step 2: initialize_cloudflare_client gate
  else if check_timeout env.remaining_ms 30 then (.errorResp "timeout" true stats0, 0)
  -- Step 4: initialize_dynamodb_client gate (step 3 has no gate)
  else if check_timeout env.remaining_ms 30 then (.errorResp "timeout" true stats0, 0)
  -- Step 5: fetch_cloudflare_value gate
  else if check_timeout env.remaining_ms 30 then (.errorResp "timeout" true stats0, 0)
  else
    match env.fetch with
    | .authError => (.errorResp "authentication" false stats0, 0)
    | .apiFailure retryable => (.errorResp "api" retryable stats0, 0)
    | .ok value =>
      let stats1 := { stats0 with
        cloudflare_api_calls := stats0.cloudflare_api_calls + 1 }
      -- Step 6: transform_data gate
      if check_timeout env.remaining_ms 30 then (.errorResp "timeout" true stats1, 0)
      else
        -- the handler builds CloudflareKey(name=key_name, expiration=None,
        -- metadata={}) before transforming
        let record := transform_kv_record env.namespace_id env.ts env.key_name
          value (Option.some ⟨env.key_name, Option.none, Option.some []⟩)
        match validate_record record with
        | .error _ => (.errorResp "data_validation" false stats1, 0)
        | .ok _ =>
          let stats2 := { stats1 with
            records_processed := stats1.records_processed + 1 }
          -- Step 7: store_record gate; on timeout the handler returns a
          -- partial *success* response without writing
          if check_timeout env.remaining_ms 30 then (.successResp stats2, 0)
          else
            let out := batch_write_records env.storeEnv env.conv
              env.max_retries [record] DynStats.init
            let stats3 := { stats2 with
              dynamodb_writes := stats2.dynamodb_writes + 1
              records_stored := stats2.records_stored + out.1.successful_records }
            (.successResp stats3, out.2.2)

/-! ## Theorems -/

/-- C9: for every attempt number at least 1 and every jitter draw in
`[0, 1)`, the store client's `_calculate_retry_delay` returns at least
0.01 seconds: the final `max(delay, 0.01)` floors the jittered value, so
the backoff sleep is never zero or negative. -/
theorem c9_store_retry_delay_floor (attempt : Nat) (r : ℚ)
    (h1 : 1 ≤ attempt) (h2 : 0 ≤ r) (h3 : r < 1) :
    (1/100 : ℚ) ≤ ddb_calculate_retry_delay attempt r := by
  unfold ddb_calculate_retry_delay
  exact le_max_right _ _

/-- Witness for C9 at `attempt = 1`, `r = 0`. -/
theorem c9_store_retry_delay_floor_witness :
    (1/100 : ℚ) ≤ ddb_calculate_retry_delay 1 0 :=
  c9_store_retry_delay_floor 1 0 (by norm_num) (by norm_num) (by norm_num)

/-- C4 counterexample: with the default retry configuration (jitter
enabled) and a jitter draw of 0 — a value `random.random()` can return —
the delay for attempt 0 *equals* the base computed value
`min(base_delay * 2^attempt, max_delay)`; it is not strictly greater, so
the claim's strictness fails. -/
theorem c4_strict_jitter_counterexample :
    cf_calculate_retry_delay {} 0 0 = cf_base_retry_delay {} 0 ∧
    ¬ (cf_base_retry_delay {} 0 < cf_calculate_retry_delay {} 0 0) := by
  constructor
  · norm_num [cf_calculate_retry_delay, cf_base_retry_delay]
  · norm_num [cf_calculate_retry_delay, cf_base_retry_delay]

/-- The jittered delay factors as the capped base delay times
`1 + r/4` (jitter enabled) or `1` (jitter disabled). -/
theorem cf_calculate_retry_delay_eq (cfg : RetryConfig) (a : Nat) (r : ℚ) :
    cf_calculate_retry_delay cfg a r =
      cf_base_retry_delay cfg a * (if cfg.jitter then 1 + (1/4) * r else 1) := by
  cases hj : cfg.jitter <;>
    simp [cf_calculate_retry_delay, cf_base_retry_delay, hj] <;> ring

/-- C4 (amended): the upstream client's retry delay (1) equals
`min(base_delay * 2^attempt, max_delay)` before jitter (i.e. with jitter
disabled), (2) is monotonically non-decreasing in the attempt number for
any fixed jitter draw, (3) never exceeds `max_delay` plus the jitter term
(a quarter of the capped delay scaled by the draw), and (4) with jitter
enabled is greater than *or equal to* the base computed value — equality
is possible because `random.random()` can draw 0, so the claimed strict
inequality must be weakened to ≥. -/
theorem c4_retry_delay_amended :
    (∀ (cfg : RetryConfig) (a : Nat) (r : ℚ), cfg.jitter = false →
      cf_calculate_retry_delay cfg a r = cf_base_retry_delay cfg a) ∧
    (∀ (cfg : RetryConfig) (a b : Nat) (r : ℚ), 0 ≤ cfg.base_delay → 0 ≤ r →
      a ≤ b →
      cf_calculate_retry_delay cfg a r ≤ cf_calculate_retry_delay cfg b r) ∧
    (∀ (cfg : RetryConfig) (a : Nat) (r : ℚ), 0 ≤ cfg.base_delay →
      0 ≤ cfg.max_delay → 0 ≤ r →
      cf_calculate_retry_delay cfg a r ≤
        cfg.max_delay + cf_base_retry_delay cfg a * (1/4) * r) ∧
    (∀ (cfg : RetryConfig) (a : Nat) (r : ℚ), cfg.jitter = true →
      0 ≤ cfg.base_delay → 0 ≤ cfg.max_delay → 0 ≤ r →
      cf_base_retry_delay cfg a ≤ cf_calculate_retry_delay cfg a r) := by
  refine ⟨?_, ?_, ?_, ?_⟩
  · intro cfg a r hj
    rw [cf_calculate_retry_delay_eq, hj]
    simp
  · intro cfg a b r hb hr hab
    have h2 : cfg.base_delay * 2 ^ a ≤ cfg.base_delay * 2 ^ b :=
      mul_le_mul_of_nonneg_left
        (pow_le_pow_right₀ (by norm_num : (1:ℚ) ≤ 2) hab) hb
    have hd : cf_base_retry_delay cfg a ≤ cf_base_retry_delay cfg b :=
      min_le_min h2 le_rfl
    rw [cf_calculate_retry_delay_eq, cf_calculate_retry_delay_eq]
    apply mul_le_mul_of_nonneg_right hd
    cases cfg.jitter <;> simp <;> nlinarith [hr]
  · intro cfg a r hb hm hr
    have hd : cf_base_retry_delay cfg a ≤ cfg.max_delay := min_le_right _ _
    have hd0 : 0 ≤ cf_base_retry_delay cfg a := le_min (by positivity) hm
    rw [cf_calculate_retry_delay_eq]
    cases cfg.jitter <;> simp <;> nlinarith [hd, hd0, hr]
  · intro cfg a r hj hb hm hr
    have hd0 : 0 ≤ cf_base_retry_delay cfg a := le_min (by positivity) hm
    rw [cf_calculate_retry_delay_eq, hj]
    simp
    nlinarith [hd0, hr]

/-- Witness for the amended C4 at the default configuration, attempts 1 ≤ 2,
draw 1/2. -/
theorem c4_retry_delay_amended_witness :
    cf_calculate_retry_delay { jitter := false } 1 (1/2) =
      cf_base_retry_delay { jitter := false } 1 ∧
    cf_calculate_retry_delay {} 1 (1/2) ≤ cf_calculate_retry_delay {} 2 (1/2) ∧
    cf_calculate_retry_delay {} 1 (1/2) ≤
      (60 : ℚ) + cf_base_retry_delay {} 1 * (1/4) * (1/2) ∧
    cf_base_retry_delay {} 1 ≤ cf_calculate_retry_delay {} 1 (1/2) := by
  refine ⟨c4_retry_delay_amended.1 _ 1 (1/2) rfl,
    c4_retry_delay_amended.2.1 _ 1 2 (1/2) (by norm_num) (by norm_num)
      (by norm_num),
    ?_,
    c4_retry_delay_amended.2.2.2 _ 1 (1/2) rfl (by norm_num) (by norm_num)
      (by norm_num)⟩
  exact c4_retry_delay_amended.2.2.1 {} 1 (1/2) (by norm_num) (by norm_num)
    (by norm_num)

mutual

/-- The metadata walk of `_validate_metadata_for_dynamodb` never raises:
its only failure branch rejects non-string dict keys, which the embedding
rules out by type. -/
theorem validate_value_ok : ∀ v : PyValue, validate_value v = Except.ok ()
  | .none => rfl
  | .str _ => rfl
  | .int _ => rfl
  | .bool _ => rfl
  | .dict xs => validate_dict_entries_ok xs
  | .list xs => validate_list_items_ok xs

/-- Dict-entry iteration of the metadata walk never raises. -/
theorem validate_dict_entries_ok :
    ∀ xs : List (String × PyValue), validate_dict_entries xs = Except.ok ()
  | [] => rfl
  | (k, v) :: rest => by
    rw [validate_dict_entries, validate_value_ok v]
    exact validate_dict_entries_ok rest

/-- List-item iteration of the metadata walk never raises. -/
theorem validate_list_items_ok :
    ∀ xs : List PyValue, validate_list_items xs = Except.ok ()
  | [] => rfl
  | v :: rest => by
    rw [validate_list_items, validate_value_ok v]
    exact validate_list_items_ok rest

end

/-- A string known to differ from `""` has `isEmpty = false`. -/
theorem isEmpty_false_of_ne (s : String) (h : s ≠ "") : s.isEmpty = false := by
  cases he : s.isEmpty
  · rfl
  · exact absurd ((String.isEmpty_iff s).mp he) h

/-- The generated partition key `"cf_kv#" + key` is never empty. -/
theorem cf_kv_append_ne (key : String) : "cf_kv#" ++ key ≠ "" := by
  intro h
  have hl := congrArg String.length h
  simp [String.length_append] at hl
  have h6 : ("cf_kv#" : String).length = 6 := rfl
  omega

/-- Lookup over an appended dict searches the left part first. -/
theorem dictGet_append (m l : List (String × PyValue)) (k : String) :
    dictGet (m ++ l) k =
      match dictGet m k with
      | Option.some v => Option.some v
      | Option.none => dictGet l k := by
  induction m with
  | nil => simp [dictGet]
  | cons p rest ih =>
    by_cases hp : p.1 = k <;> simp [dictGet, hp, ih]

/-- A key absent from the dict looks up to `none`. -/
theorem dictGet_none_of_any_false (m : List (String × PyValue)) (k : String)
    (h : m.any (fun q => q.1 = k) = false) : dictGet m k = Option.none := by
  induction m with
  | nil => rfl
  | cons p rest ih =>
    simp only [List.any_cons, Bool.or_eq_false_iff] at h
    have hp : ¬ p.1 = k := by simpa using h.1
    simp [dictGet, hp, ih h.2]

/-- In-place replacement of key `k` makes lookup of `k` return the new
value. -/
theorem dictGet_map_set_same (m : List (String × PyValue)) (k : String)
    (v : PyValue) (h : m.any (fun q => q.1 = k) = true) :
    dictGet (m.map (fun q => if q.1 = k then (k, v) else q)) k =
      Option.some v := by
  induction m with
  | nil => simp at h
  | cons p rest ih =>
    by_cases hp : p.1 = k
    · simp [dictGet, hp]
    · simp only [List.any_cons, Bool.or_eq_true] at h
      have hrest : rest.any (fun q => q.1 = k) = true := by
        rcases h with h1 | h2
        · exact absurd (by simpa using h1) hp
        · exact h2
      simp [dictGet, hp, ih hrest]

/-- In-place replacement of key `k'` does not change lookup of a
different key `k`. -/
theorem dictGet_map_set_ne (m : List (String × PyValue)) (k k' : String)
    (v : PyValue) (h : k ≠ k') :
    dictGet (m.map (fun q => if q.1 = k' then (k', v) else q)) k =
      dictGet m k := by
  induction m with
  | nil => rfl
  | cons p rest ih =>
    by_cases hp : p.1 = k'
    · have hpk : ¬ p.1 = k := by
        rw [hp]
        exact Ne.symm h
      have hhead : (if p.1 = k' then (k', v) else p) = (k', v) := if_pos hp
      simp only [List.map_cons, hhead, dictGet]
      rw [if_neg (fun he => h he.symm), if_neg hpk]
      exact ih
    · have hhead : (if p.1 = k' then (k', v) else p) = p := if_neg hp
      simp only [List.map_cons, hhead, dictGet]
      by_cases hpk : p.1 = k <;> simp [hpk, ih]

/-- `dictSet` on key `k` makes lookup of `k` return the new value. -/
theorem dictGet_dictSet_same (m : List (String × PyValue)) (k : String)
    (v : PyValue) : dictGet (dictSet m k v) k = Option.some v := by
  unfold dictSet
  by_cases hany : m.any (fun q => q.1 = k) = true
  · rw [if_pos hany]
    exact dictGet_map_set_same m k v hany
  · have hf : m.any (fun q => q.1 = k) = false := by
      cases hx : m.any (fun q => q.1 = k)
      · rfl
      · exact absurd hx hany
    rw [if_neg hany, dictGet_append, dictGet_none_of_any_false m k hf]
    simp [dictGet]

/-- `dictSet` on key `k'` does not change lookup of a different key. -/
theorem dictGet_dictSet_ne (m : List (String × PyValue)) (k k' : String)
    (v : PyValue) (h : k ≠ k') :
    dictGet (dictSet m k' v) k = dictGet m k := by
  unfold dictSet
  by_cases hany : m.any (fun q => q.1 = k') = true
  · rw [if_pos hany]
    exact dictGet_map_set_ne m k k' v h
  · rw [if_neg hany, dictGet_append]
    cases hm : dictGet m k
    · simp [dictGet, Ne.symm h]
    · simp

/-- `dict.update` with entries whose keys all differ from `k` does not
change lookup of `k`. -/
theorem dictGet_dictUpdate_not_mem :
    ∀ (upd m : List (String × PyValue)) (k : String),
    (∀ p ∈ upd, p.1 ≠ k) → dictGet (dictUpdate m upd) k = dictGet m k
  | [], _, _, _ => rfl
  | (k', v) :: rest, m, k, h => by
    rw [dictUpdate]
    rw [dictGet_dictUpdate_not_mem rest (dictSet m k' v) k
      (fun p hp => h p (List.mem_cons_of_mem _ hp))]
    exact dictGet_dictSet_ne m k k' v
      (fun he => h (k', v) (List.mem_cons_self _ _) he.symm)

/-- A key that looks up to `none` heads no entry. -/
theorem not_mem_of_dictGet_none (m : List (String × PyValue)) (k : String)
    (h : dictGet m k = Option.none) : ∀ p ∈ m, p.1 ≠ k := by
  induction m with
  | nil => simp
  | cons p rest ih =>
    intro q hq
    by_cases hp : p.1 = k
    · rw [dictGet, if_pos hp] at h
      exact absurd h (by simp)
    · rw [dictGet, if_neg hp] at h
      rcases List.mem_cons.mp hq with hq1 | hq2
      · rw [hq1]
        exact hp
      · exact ih h q hq2

/-- C5: for every valid (key, value) pair — a non-empty key, with the
namespace id and generated timestamp non-empty as the configuration and
clock guarantee — whose transformed record is within the 400 KiB item
ceiling and the 2048/1024-byte key-length ceilings,
`transform_kv_record` followed by `validate_record` raises no exception,
and the produced `value` field is always a string: `None` maps to the
empty string, a string is stored unchanged, and any other value is
JSON-serialized (serialization is total on the embedded value domain, so
the source's string-cast fallback branch is never taken). -/
theorem c5_transform_then_validate_ok (ns ts key : String) (v : PyValue)
    (ckm : Option CloudflareKey)
    (hkey : key ≠ "") (hns : ns ≠ "") (hts : ts ≠ "")
    (hsize : estimate_item_size (transform_kv_record ns ts key v ckm) ≤
      MAX_DYNAMODB_ITEM_SIZE)
    (hpk2 : (transform_kv_record ns ts key v ckm).pk.utf8ByteSize ≤ 2048)
    (hsk1 : (transform_kv_record ns ts key v ckm).sk.utf8ByteSize ≤ 1024) :
    validate_record (transform_kv_record ns ts key v ckm) = Except.ok true ∧
    (transform_kv_record ns ts key v ckm).value =
      PyValue.str (coerceValue v) ∧
    coerceValue PyValue.none = "" ∧
    (∀ s, coerceValue (PyValue.str s) = s) ∧
    (∀ b, coerceValue (PyValue.bool b) = jsonDumps (PyValue.bool b)) ∧
    (∀ n, coerceValue (PyValue.int n) = jsonDumps (PyValue.int n)) ∧
    (∀ xs, coerceValue (PyValue.list xs) = jsonDumps (PyValue.list xs)) ∧
    (∀ xs, coerceValue (PyValue.dict xs) = jsonDumps (PyValue.dict xs)) := by
  have hv : (transform_kv_record ns ts key v ckm).value =
      PyValue.str (coerceValue v) := by simp [transform_kv_record]
  have hpkeq : (transform_kv_record ns ts key v ckm).pk = "cf_kv#" ++ key := by
    simp [transform_kv_record]
  have hskeq : (transform_kv_record ns ts key v ckm).sk = ts := by
    simp [transform_kv_record]
  have hkneq : (transform_kv_record ns ts key v ckm).key_name = key := by
    simp [transform_kv_record]
  have hsrceq : (transform_kv_record ns ts key v ckm).source = SOURCE := by
    simp [transform_kv_record]
  have hnseq : (transform_kv_record ns ts key v ckm).namespace_id = ns := by
    simp [transform_kv_record]
  have hdveq : (transform_kv_record ns ts key v ckm).data_version =
      DATA_VERSION := by simp [transform_kv_record]
  have hpkne : (transform_kv_record ns ts key v ckm).pk.isEmpty = false := by
    rw [hpkeq]
    exact isEmpty_false_of_ne _ (cf_kv_append_ne key)
  have hskne : (transform_kv_record ns ts key v ckm).sk.isEmpty = false := by
    rw [hskeq]
    exact isEmpty_false_of_ne _ hts
  have hknne : (transform_kv_record ns ts key v ckm).key_name.isEmpty =
      false := by
    rw [hkneq]
    exact isEmpty_false_of_ne _ hkey
  have hnsne : (transform_kv_record ns ts key v ckm).namespace_id.isEmpty =
      false := by
    rw [hnseq]
    exact isEmpty_false_of_ne _ hns
  have hdvne : (transform_kv_record ns ts key v ckm).data_version.isEmpty =
      false := by
    rw [hdveq]
    rfl
  have hcon : validate_dynamodb_constraints
      (transform_kv_record ns ts key v ckm) = Except.ok () := by
    unfold validate_dynamodb_constraints
    rw [if_neg (by omega), if_neg (by omega), if_neg (by omega)]
    unfold validate_metadata_for_dynamodb
    exact validate_value_ok _
  refine ⟨?_, hv, rfl, fun s => rfl, fun b => rfl, fun n => rfl,
    fun xs => rfl, fun xs => rfl⟩
  unfold validate_record
  rw [hv]
  simp [hpkne, hskne, hknne, hsrceq, hnsne, hdvne, hcon]

/-- Witness for C5 at a concrete key/value with no upstream metadata. -/
theorem c5_transform_then_validate_ok_witness :
    validate_record (transform_kv_record "ns1" "2024-01-01T00:00:00+00:00"
      "k1" (PyValue.int 5) Option.none) = Except.ok true :=
  (c5_transform_then_validate_ok "ns1" "2024-01-01T00:00:00+00:00" "k1"
    (PyValue.int 5) Option.none (by decide) (by decide) (by decide)
    (by decide) (by decide) (by decide)).1

/-- Python truthiness of the `expiration` attribute of the optional
`CloudflareKey`: truthy exactly when present and nonzero. -/
def expiration_truthy : Option CloudflareKey → Bool
  | Option.some k =>
    (match k.expiration with
     | Option.some e => decide (e ≠ 0)
     | Option.none => false)
  | Option.none => false

/-- The transformer-owned metadata fields added by the final
`metadata.update` never collide with `cloudflare_expiration`, so that
update leaves its lookup unchanged. -/
theorem dictGet_update3 (m : List (String × PyValue)) (ts ty : String)
    (n : Int) :
    dictGet (dictUpdate m [("transformed_at", PyValue.str ts),
        ("original_type", PyValue.str ty), ("value_length", PyValue.int n)])
      "cloudflare_expiration" = dictGet m "cloudflare_expiration" := by
  rw [dictGet_dictUpdate_not_mem]
  intro p hp
  simp only [List.mem_cons, List.not_mem_nil, or_false] at hp
  rcases hp with rfl | rfl | rfl
  · show ("transformed_at" : String) ≠ "cloudflare_expiration"
    decide
  · show ("original_type" : String) ≠ "cloudflare_expiration"
    decide
  · show ("value_length" : String) ≠ "cloudflare_expiration"
    decide

/-- C10: `transform_kv_record` sets `ttl` from the upstream expiration
only when that expiration is truthy: the produced `ttl` is non-`None` iff
the upstream expiration is present and nonzero; an expiration of 0
produces a record identical to one transformed with no expiration at all;
and (provided the upstream metadata does not itself carry a
`cloudflare_expiration` entry) the metadata contains a
`cloudflare_expiration` entry iff the expiration is truthy. -/
theorem c10_ttl_truthy_expiration :
    (∀ (ns ts key : String) (v : PyValue) (ckm : Option CloudflareKey),
      (transform_kv_record ns ts key v ckm).ttl.isSome =
        expiration_truthy ckm) ∧
    (∀ (ns ts key : String) (v : PyValue) (name : String)
        (md : Option (List (String × PyValue))),
      transform_kv_record ns ts key v
          (Option.some ⟨name, Option.some 0, md⟩) =
        transform_kv_record ns ts key v
          (Option.some ⟨name, Option.none, md⟩)) ∧
    (∀ (ns ts key : String) (v : PyValue) (ckm : Option CloudflareKey),
      (∀ km m, ckm = Option.some km → km.metadata = Option.some m →
        dictGet m "cloudflare_expiration" = Option.none) →
      (dictGet (transform_kv_record ns ts key v ckm).metadata
          "cloudflare_expiration").isSome = expiration_truthy ckm) := by
  refine ⟨?_, ?_, ?_⟩
  · intro ns ts key v ckm
    rcases ckm with _ | ⟨name, exp, md⟩
    · simp [transform_kv_record, expiration_truthy]
    · rcases exp with _ | e
      · simp [transform_kv_record, expiration_truthy]
      · by_cases he : e = 0
        · subst he
          simp [transform_kv_record, expiration_truthy]
        · simp [transform_kv_record, expiration_truthy, he]
  · intro ns ts key v name md
    simp [transform_kv_record]
  · intro ns ts key v ckm hno
    rcases ckm with _ | ⟨name, exp, md⟩
    · simp only [transform_kv_record, expiration_truthy]
      rw [dictGet_update3]
      rfl
    · rcases md with _ | m
      · rcases exp with _ | e
        · simp only [transform_kv_record, expiration_truthy]
          rw [dictGet_update3]
          rfl
        · by_cases he : e = 0
          · subst he
            simp only [transform_kv_record, expiration_truthy]
            rw [dictGet_update3]
            rfl
          · simp only [transform_kv_record, expiration_truthy, he, ne_eq,
              not_false_eq_true, if_true]
            rw [dictGet_update3, dictGet_dictSet_same]
            simp [he]
      · -- upstream metadata present: its own lookup is `none` by hypothesis
        have hkeys := not_mem_of_dictGet_none m "cloudflare_expiration"
          (hno ⟨name, exp, Option.some m⟩ m rfl rfl)
        have hbase : dictGet
            (if m.isEmpty then [] else dictUpdate [] m)
            "cloudflare_expiration" = Option.none := by
          by_cases hm : m.isEmpty
          · simp [hm, dictGet]
          · simp only [hm, Bool.false_eq_true, if_false]
            rw [dictGet_dictUpdate_not_mem _ _ _ hkeys]
            rfl
        rcases exp with _ | e
        · simp only [transform_kv_record, expiration_truthy]
          rw [dictGet_update3, hbase]
          rfl
        · by_cases he : e = 0
          · subst he
            simp only [transform_kv_record, expiration_truthy]
            rw [dictGet_update3]
            simp only [ne_eq, not_true_eq_false, Bool.false_eq_true,
              if_false]
            rw [hbase]
            rfl
          · simp only [transform_kv_record, expiration_truthy, he, ne_eq,
              not_false_eq_true, if_true]
            rw [dictGet_update3, dictGet_dictSet_same]
            simp [he]

/-- Witness for C10 at a concrete key with expiration 5 and empty
upstream metadata. -/
theorem c10_ttl_truthy_expiration_witness :
    (dictGet (transform_kv_record "n" "t" "k" PyValue.none
        (Option.some ⟨"k", Option.some 5, Option.some []⟩)).metadata
      "cloudflare_expiration").isSome =
      expiration_truthy (Option.some ⟨"k", Option.some 5, Option.some []⟩) :=
  c10_ttl_truthy_expiration.2.2 "n" "t" "k" PyValue.none
    (Option.some ⟨"k", Option.some 5, Option.some []⟩)
    (fun km m hkm hm => by
      rw [Option.some.injEq] at hkm
      subst hkm
      simp only at hm
      rw [Option.some.injEq] at hm
      subst hm
      rfl)

/-- The store provider behaviour that exhibits the C1 accounting failure:
every physical write call reports the whole submitted batch as
unprocessed (persistent throttling). -/
def c1_env : Nat → DynamoResponse Unit := fun _ => DynamoResponse.ok [()]

/-- C1 fails on the code: submitting one record under `c1_env` with the
default `max_retries = 3` exhausts the retries with the item unprocessed;
`_write_batch_with_retry` counts it in `failed_records` *and*
`batch_write_records` adds `len(unprocessed_items)` again, so the result
reports 0 successful + 2 failed for 1 submitted record, and the client's
cumulative counters read attempted = 1 but successful + failed = 2 — the
mismatch the code itself logs as a "Storage accuracy error". The empty
list, by contrast, short-circuits with all-zero statistics and no network
call, as claimed. -/
theorem c1_unprocessed_double_count :
    (batch_write_records c1_env (fun _ => true) 3 [()]
        DynStats.init).1.successful_records = 0 ∧
    (batch_write_records c1_env (fun _ => true) 3 [()]
        DynStats.init).1.failed_records = 2 ∧
    ¬ ((batch_write_records c1_env (fun _ => true) 3 [()]
        DynStats.init).1.successful_records +
       (batch_write_records c1_env (fun _ => true) 3 [()]
        DynStats.init).1.failed_records = ([()] : List Unit).length) ∧
    (batch_write_records c1_env (fun _ => true) 3 [()]
        DynStats.init).2.1.total_records_attempted = 1 ∧
    ¬ ((batch_write_records c1_env (fun _ => true) 3 [()]
        DynStats.init).2.1.total_records_successful +
       (batch_write_records c1_env (fun _ => true) 3 [()]
        DynStats.init).2.1.total_records_failed =
       (batch_write_records c1_env (fun _ => true) 3 [()]
        DynStats.init).2.1.total_records_attempted) ∧
    batch_write_records c1_env (fun _ => true) 3 ([] : List Unit)
        DynStats.init = (⟨0, 0, [], [], 0⟩, DynStats.init, 0) := by
  have hloop : writeBatchLoop c1_env 3 [()] 0 [] 0 0 0 =
      ⟨.ok ⟨0, 1, [()],
        ["Max retries exceeded with unprocessed items"], 4⟩, 3, 4⟩ := by
    rw [writeBatchLoop]
    norm_num [c1_env]
    rw [writeBatchLoop]
    norm_num [c1_env]
    rw [writeBatchLoop]
    norm_num [c1_env]
    rw [writeBatchLoop]
    norm_num [c1_env]
  have hmain : batch_write_records c1_env (fun _ => true) 3 [()]
      DynStats.init =
      (⟨0, 2, [], ["Max retries exceeded with unprocessed items",
          "Storage accuracy error"], 4⟩,
        ⟨1, 0, 2, 1, 3⟩, 4) := by
    rw [batch_write_records]
    norm_num [MAX_BATCH_SIZE, chunks25, batchFold, write_batch_with_retry,
      hloop, DynStats.init]
  have hempty : batch_write_records c1_env (fun _ => true) 3
      ([] : List Unit) DynStats.init = (⟨0, 0, [], [], 0⟩, DynStats.init, 0) := by
    rw [batch_write_records]
    norm_num
  rw [hmain, hempty]
  norm_num

/-- C7: with the handler's 30-second buffer, a deadline source reporting
25 seconds remaining makes the very first stage-boundary check
(`check_timeout` inside the `load_configuration` gate) report that the
stage may not proceed, and the invocation returns an error response of
category `timeout` with `is_retryable = true`, having performed no store
write call; the same outcome holds whenever the remaining-time function
returns 0 or any negative value (and such a value trips `check_timeout`
for every nonnegative buffer). -/
theorem c7_deadline_gate :
    check_timeout 25000 30 = true ∧
    (∀ env : HandlerEnv, env.remaining_ms = 25000 →
      lambda_handler env = (.errorResp "timeout" true {}, 0)) ∧
    (∀ (ms : Int) (b : ℚ), ms ≤ 0 → 0 ≤ b → check_timeout ms b = true) ∧
    (∀ env : HandlerEnv, env.remaining_ms ≤ 0 →
      lambda_handler env = (.errorResp "timeout" true {}, 0)) := by
  have h25 : check_timeout 25000 30 = true := by
    simp only [check_timeout, decide_eq_true_eq]
    norm_num
  have hneg : ∀ (ms : Int) (b : ℚ), ms ≤ 0 → 0 ≤ b →
      check_timeout ms b = true := by
    intro ms b hms hb
    simp only [check_timeout, decide_eq_true_eq]
    have hc : (ms : ℚ) ≤ 0 := by exact_mod_cast hms
    have : (ms : ℚ) / 1000 ≤ 0 := by
      apply div_nonpos_of_nonpos_of_nonneg hc
      norm_num
    linarith
  refine ⟨h25, ?_, hneg, ?_⟩
  · intro env henv
    unfold lambda_handler
    rw [henv, h25]
    rfl
  · intro env henv
    unfold lambda_handler
    rw [hneg env.remaining_ms 30 henv (by norm_num)]
    rfl

/-- Witness for C7 at a context with 25 000 ms remaining, and at one
reporting −5 ms. -/
theorem c7_deadline_gate_witness :
    lambda_handler ⟨25000, true, "k", "n", "t", FetchOutcome.ok PyValue.none,
      fun _ => DynamoResponse.ok [], fun _ => true, 3⟩ =
      (.errorResp "timeout" true {}, 0) ∧
    lambda_handler ⟨-5, true, "k", "n", "t", FetchOutcome.ok PyValue.none,
      fun _ => DynamoResponse.ok [], fun _ => true, 3⟩ =
      (.errorResp "timeout" true {}, 0) ∧
    check_timeout (-5) 30 = true := by
  refine ⟨?_, ?_, ?_⟩
  · exact c7_deadline_gate.2.1 _ rfl
  · exact c7_deadline_gate.2.2.2 _ (by norm_num)
  · exact c7_deadline_gate.2.2.1 (-5) 30 (by norm_num) (by norm_num)

/-- The C2 scenario environment: configuration loads, the default key is
fetched successfully, and every physical store write raises a provider
error with the given code. -/
def c2_env (ms : Int) (code : String) : HandlerEnv :=
  ⟨ms, true, "redirect-all-users-to-essentials", "ns1",
    "2024-01-01T00:00:00+00:00", .ok (.str "on"),
    fun _ => .clientError code, fun _ => true, 3⟩

/-- Evaluation of the handler on the C2 scenario: the store error is
swallowed into the batch result, and the invocation ends in a success
response with statistics ⟨api_calls 1, writes 1, processed 1, stored 0,
failed 0⟩ and exactly one physical store write call. -/
theorem c2_env_eval (ms : Int) (code : String)
    (hms : check_timeout ms 30 = false)
    (hcode : code ∉ DDB_RETRYABLE_ERRORS) :
    lambda_handler (c2_env ms code) = (.successResp ⟨1, 1, 1, 0, 0⟩, 1) ∧
    batch_write_records (fun _ => DynamoResponse.clientError code)
      (fun _ => true) 3
      [transform_kv_record "ns1" "2024-01-01T00:00:00+00:00"
        "redirect-all-users-to-essentials" (PyValue.str "on")
        (Option.some ⟨"redirect-all-users-to-essentials", Option.none,
          Option.some []⟩)]
      DynStats.init =
      (⟨0, 1, [],
        ["Batch failed completely: " ++
          ("Non-retryable error or max retries exceeded: " ++ code)], 0⟩,
        ⟨1, 0, 1, 1, 0⟩, 1) := by
  have hval : validate_record (transform_kv_record "ns1"
      "2024-01-01T00:00:00+00:00" "redirect-all-users-to-essentials"
      (PyValue.str "on")
      (Option.some ⟨"redirect-all-users-to-essentials", Option.none,
        Option.some []⟩)) = Except.ok true := rfl
  have hloop : writeBatchLoop (fun _ => DynamoResponse.clientError code) 3
      [transform_kv_record "ns1" "2024-01-01T00:00:00+00:00"
        "redirect-all-users-to-essentials" (PyValue.str "on")
        (Option.some ⟨"redirect-all-users-to-essentials", Option.none,
          Option.some []⟩)] 0 [] 0 0 0 =
      ⟨.error ("Non-retryable error or max retries exceeded: " ++ code),
        0, 1⟩ := by
    rw [writeBatchLoop]
    simp [hcode]
  have hbw : batch_write_records (fun _ => DynamoResponse.clientError code)
      (fun _ => true) 3
      [transform_kv_record "ns1" "2024-01-01T00:00:00+00:00"
        "redirect-all-users-to-essentials" (PyValue.str "on")
        (Option.some ⟨"redirect-all-users-to-essentials", Option.none,
          Option.some []⟩)]
      DynStats.init =
      (⟨0, 1, [],
        ["Batch failed completely: " ++
          ("Non-retryable error or max retries exceeded: " ++ code)], 0⟩,
        ⟨1, 0, 1, 1, 0⟩, 1) := by
    rw [batch_write_records]
    norm_num [MAX_BATCH_SIZE, chunks25, batchFold, write_batch_with_retry,
      hloop, DynStats.init]
  refine ⟨?_, hbw⟩
  unfold lambda_handler c2_env
  simp only [hms, Bool.false_eq_true, if_false, Bool.not_true,
    Bool.true_eq_false, hval, hbw]

/-- C2 (amended): when the store write raises a non-retryable provider
error (e.g. table-not-found), `batch_write_records` swallows it into the
batch result, the handler's store step raises nothing, and the invocation
returns `success = true` with `records_stored = 0`, a 0.0 success rate —
and `records_failed = 0`, not 1: the handler never updates the
`records_failed` statistic (the failure is visible only in the batch
result and the store client's own counters, which report 1 failed of 1
attempted). Exactly one physical write call is made. -/
theorem c2_store_error_partial_success (ms : Int) (code : String)
    (hms : check_timeout ms 30 = false)
    (hcode : code ∉ DDB_RETRYABLE_ERRORS) :
    lambda_handler (c2_env ms code) =
      (.successResp ⟨1, 1, 1, 0, 0⟩, 1) ∧
    (lambda_handler (c2_env ms code)).1.success = true ∧
    (lambda_handler (c2_env ms code)).1.stats.records_stored = 0 ∧
    (lambda_handler (c2_env ms code)).1.stats.records_failed = 0 ∧
    get_success_rate (lambda_handler (c2_env ms code)).1.stats = 0 ∧
    (batch_write_records (fun _ => DynamoResponse.clientError code)
      (fun _ => true) 3
      [transform_kv_record "ns1" "2024-01-01T00:00:00+00:00"
        "redirect-all-users-to-essentials" (PyValue.str "on")
        (Option.some ⟨"redirect-all-users-to-essentials", Option.none,
          Option.some []⟩)]
      DynStats.init).2.1 = ⟨1, 0, 1, 1, 0⟩ := by
  obtain ⟨hmain, hbw⟩ := c2_env_eval ms code hms hcode
  refine ⟨hmain, ?_, ?_, ?_, ?_, ?_⟩
  · rw [hmain]
    rfl
  · rw [hmain]
    rfl
  · rw [hmain]
    rfl
  · rw [hmain]
    norm_num [get_success_rate, LambdaResponse.stats]
  · rw [hbw]

/-- Witness for the amended C2 with 300 s remaining and a
table-not-found provider error. -/
theorem c2_store_error_partial_success_witness :
    lambda_handler (c2_env 300000 "ResourceNotFoundException") =
      (.successResp ⟨1, 1, 1, 0, 0⟩, 1) :=
  (c2_store_error_partial_success 300000 "ResourceNotFoundException"
    (by simp only [check_timeout, decide_eq_false_iff_not]; norm_num)
    (by decide)).1

/-- C2 counterexample: on the very scenario the claim describes
(non-retryable table-not-found from the store), the returned statistics
report `records_failed = 0`, not 1 — the handler never increments that
counter. -/
theorem c2_records_failed_counterexample :
    (lambda_handler (c2_env 300000 "ResourceNotFoundException")).1.success
      = true ∧
    ¬ ((lambda_handler
        (c2_env 300000 "ResourceNotFoundException")).1.stats.records_failed
      = 1) := by
  have h := (c2_env_eval 300000 "ResourceNotFoundException"
    (by simp only [check_timeout, decide_eq_false_iff_not]; norm_num)
    (by decide)).1
  rw [h]
  refine ⟨rfl, by norm_num [LambdaResponse.stats]⟩

/-- An attempt outcome on which the retry loop continues to the next
attempt (when one remains): a rate limit, or an API error that is not a
4xx-other-than-429 client error. -/
def retryable_outcome : CFOutcome α → Bool
  | .rateLimit _ => true
  | .apiError s => !nonRetryableStatus s
  | _ => false

/-- If every outcome before attempt `k` is retryable and `k` is still
within the attempt budget, the loop reaches attempt `k`. -/
theorem cfRetryFrom_skip (outcomes : Nat → CFOutcome α) (M k : Nat) :
    ∀ a, a ≤ k → k < M →
    (∀ j, a ≤ j → j < k → retryable_outcome (outcomes j) = true) →
    cfRetryFrom outcomes M a = cfRetryFrom outcomes M k := by
  intro a hak hkM hretry
  generalize hd : k - a = n
  induction n generalizing a with
  | zero =>
    have : a = k := by omega
    subst this
    rfl
  | succ n ih =>
    have ha : a < k := by omega
    have hr := hretry a le_rfl ha
    rw [cfRetryFrom, if_neg (by omega : ¬ M ≤ a)]
    cases houtcome : outcomes a with
    | success x => rw [houtcome] at hr; simp [retryable_outcome] at hr
    | authError => rw [houtcome] at hr; simp [retryable_outcome] at hr
    | rateLimit ra =>
      have hlt : a < M - 1 := by omega
      simp only [hlt, if_true]
      exact ih (a + 1) (by omega) (fun j h1 h2 => hretry j (by omega) h2)
        (by omega)
    | apiError s =>
      rw [houtcome] at hr
      simp only [retryable_outcome, Bool.not_eq_true'] at hr
      have hlt : a < M - 1 := by omega
      simp only [hr, hlt, if_true, Bool.false_eq_true, if_false]
      exact ih (a + 1) (by omega) (fun j h1 h2 => hretry j (by omega) h2)
        (by omega)

/-- C6: in `_execute_with_retries`, (1) an authentication failure is never
retried: if it occurs on attempt `k` (after only retryable outcomes), the
loop raises it at once, having made exactly `k + 1` attempts; (2) a client
error with status in 400–499 other than 429 likewise propagates
immediately; (3) when every attempt fails with a retryable API error, the
budget is exhausted and the error encountered on the last attempt is the
one re-raised. -/
theorem c6_retry_loop_propagation {α : Type} :
    (∀ (outcomes : Nat → CFOutcome α) (M k : Nat), k < M →
      (∀ j, j < k → retryable_outcome (outcomes j) = true) →
      outcomes k = .authError →
      execute_with_retries outcomes M = (.error .authError, k + 1)) ∧
    (∀ (outcomes : Nat → CFOutcome α) (M k c : Nat), k < M →
      (∀ j, j < k → retryable_outcome (outcomes j) = true) →
      outcomes k = .apiError (Option.some c) → 400 ≤ c → c < 500 → c ≠ 429 →
      execute_with_retries outcomes M =
        (.error (.apiError (Option.some c)), k + 1)) ∧
    (∀ (outcomes : Nat → CFOutcome α) (M : Nat) (s : Option Nat), 1 ≤ M →
      (∀ j, j < M - 1 → retryable_outcome (outcomes j) = true) →
      outcomes (M - 1) = .apiError s →
      execute_with_retries outcomes M = (.error (.apiError s), M)) ∧
    (∀ (outcomes : Nat → CFOutcome α) (M : Nat) (ra : Option ℚ), 1 ≤ M →
      (∀ j, j < M - 1 → retryable_outcome (outcomes j) = true) →
      outcomes (M - 1) = .rateLimit ra →
      execute_with_retries outcomes M = (.error (.rateLimit ra), M)) := by
  refine ⟨?_, ?_, ?_, ?_⟩
  · intro outcomes M k hkM hretry hk
    unfold execute_with_retries
    rw [cfRetryFrom_skip outcomes M k 0 (by omega) hkM
      (fun j _ h2 => hretry j h2)]
    rw [cfRetryFrom, if_neg (by omega : ¬ M ≤ k), hk]
  · intro outcomes M k c hkM hretry hk h4 h5 h429
    unfold execute_with_retries
    rw [cfRetryFrom_skip outcomes M k 0 (by omega) hkM
      (fun j _ h2 => hretry j h2)]
    rw [cfRetryFrom, if_neg (by omega : ¬ M ≤ k), hk]
    have hnr : nonRetryableStatus (Option.some c) = true := by
      simp [nonRetryableStatus]
      omega
    simp [hnr]
  · intro outcomes M s hM hretry hlast
    unfold execute_with_retries
    rw [cfRetryFrom_skip outcomes M (M - 1) 0 (by omega) (by omega)
      (fun j _ h2 => hretry j h2)]
    rw [cfRetryFrom, if_neg (by omega : ¬ M ≤ M - 1), hlast]
    have hM1 : M - 1 + 1 = M := by omega
    by_cases hnr : nonRetryableStatus s = true <;> simp [hnr, hM1]
  · intro outcomes M ra hM hretry hlast
    unfold execute_with_retries
    rw [cfRetryFrom_skip outcomes M (M - 1) 0 (by omega) (by omega)
      (fun j _ h2 => hretry j h2)]
    rw [cfRetryFrom, if_neg (by omega : ¬ M ≤ M - 1), hlast]
    have hM1 : M - 1 + 1 = M := by omega
    simp [hM1]

/-- Witness for C6 at concrete outcome sequences (`α = Nat`). -/
theorem c6_retry_loop_propagation_witness :
    execute_with_retries
      (fun j => if j = 0 then CFOutcome.apiError (Option.some 500)
        else (CFOutcome.authError : CFOutcome Nat)) 3 =
      (.error .authError, 2) ∧
    execute_with_retries
      (fun _ => (CFOutcome.apiError (Option.some 404) : CFOutcome Nat)) 3 =
      (.error (.apiError (Option.some 404)), 1) ∧
    execute_with_retries
      (fun _ => (CFOutcome.apiError (Option.some 502) : CFOutcome Nat)) 2 =
      (.error (.apiError (Option.some 502)), 2) ∧
    execute_with_retries
      (fun _ => (CFOutcome.rateLimit (Option.some 60) : CFOutcome Nat)) 1 =
      (.error (.rateLimit (Option.some 60)), 1) := by
  refine ⟨?_, ?_, ?_, ?_⟩
  · exact c6_retry_loop_propagation.1 _ 3 1 (by omega)
      (fun j hj => by
        have : j = 0 := by omega
        subst this
        decide)
      (by simp)
  · exact c6_retry_loop_propagation.2.1 _ 3 0 404 (by omega)
      (fun j hj => absurd hj (by omega)) rfl (by omega) (by omega) (by omega)
  · exact c6_retry_loop_propagation.2.2.1 _ 2 (Option.some 502) (by omega)
      (fun j hj => by
        have : j = 0 := by omega
        subst this
        decide)
      rfl
  · exact c6_retry_loop_propagation.2.2.2 _ 1 (Option.some 60) (by omega)
      (fun j hj => absurd hj (by omega)) rfl

/-- C3: the circuit breaker (1) from CLOSED transitions to OPEN on a
failure exactly when the failure count reaches `failure_threshold`
consecutive failures; (2) while OPEN with less than `recovery_timeout`
elapsed since the last failure, every call raises the circuit-open error
without invoking the wrapped function and leaves the state untouched;
(3) once `recovery_timeout` has elapsed, the next call invokes the
function with the breaker in HALF_OPEN; (4) three consecutive successes
in HALF_OPEN return it to CLOSED with both counters reset; (5) a single
failure in HALF_OPEN returns it to OPEN (in every state reachable while
half-open, i.e. with `failure_count` already at the threshold); (6) the
hypothesis of (5) is an invariant: every non-CLOSED state reached by
`call` has `failure_count ≥ failure_threshold`. -/
theorem c3_circuit_breaker :
    (∀ (cb : CircuitBreaker) (now : ℚ), cb.state = .closed →
      ((cb.call now false).2.state = .opened ↔
        cb.failure_threshold ≤ cb.failure_count + 1)) ∧
    (∀ (cb : CircuitBreaker) (now t : ℚ) (o : Bool), cb.state = .opened →
      cb.last_failure_time = Option.some t → now - t < cb.recovery_timeout →
      cb.call now o = (false, cb)) ∧
    (∀ (cb : CircuitBreaker) (now t : ℚ) (o : Bool), cb.state = .opened →
      cb.last_failure_time = Option.some t → cb.recovery_timeout ≤ now - t →
      (cb.call now o).1 = true ∧
      (cb.call now o).2 =
        (if o then CircuitBreaker.on_success { cb with state := .halfOpen }
         else CircuitBreaker.on_failure { cb with state := .halfOpen } now)) ∧
    (∀ (cb : CircuitBreaker) (n1 n2 n3 : ℚ), cb.state = .halfOpen →
      cb.success_count = 0 →
      let cb3 := ((((cb.call n1 true).2.call n2 true).2.call n3 true)).2
      cb3.state = .closed ∧ cb3.failure_count = 0 ∧ cb3.success_count = 0) ∧
    (∀ (cb : CircuitBreaker) (now : ℚ), cb.state = .halfOpen →
      cb.failure_threshold ≤ cb.failure_count + 1 →
      (cb.call now false).1 = true ∧ (cb.call now false).2.state = .opened) ∧
    (∀ (cb : CircuitBreaker) (now : ℚ) (o : Bool),
      (cb.state ≠ .closed → cb.failure_threshold ≤ cb.failure_count) →
      ((cb.call now o).2.state ≠ .closed →
        cb.failure_threshold ≤ (cb.call now o).2.failure_count)) := by
  refine ⟨?_, ?_, ?_, ?_, ?_, ?_⟩
  · intro cb now hst
    simp [CircuitBreaker.call, hst, CircuitBreaker.on_failure]
    by_cases h : cb.failure_threshold ≤ cb.failure_count + 1 <;> simp [h]
  · intro cb now t o hst hlf hlt
    have hre : cb.should_attempt_reset now = false := by
      simp [CircuitBreaker.should_attempt_reset, hlf]
      linarith
    simp [CircuitBreaker.call, hst, hre]
  · intro cb now t o hst hlf hge
    have hre : cb.should_attempt_reset now = true := by
      simp [CircuitBreaker.should_attempt_reset, hlf]
      linarith
    cases o <;> simp [CircuitBreaker.call, hst, hre]
  · intro cb n1 n2 n3 hst hsc
    obtain ⟨ft, rt, fc, lft, st, sc⟩ := cb
    simp only at hst hsc
    subst hst
    subst hsc
    simp [CircuitBreaker.call, CircuitBreaker.on_success]
  · intro cb now hst hth
    simp [CircuitBreaker.call, hst, CircuitBreaker.on_failure, hth]
  · intro cb now o hinv
    rcases hs : cb.state with _ | _ | _ <;> rcases ho : o <;>
      simp_all [CircuitBreaker.call, CircuitBreaker.on_success,
        CircuitBreaker.on_failure, CircuitBreaker.should_attempt_reset] <;>
      split_ifs <;> simp_all <;> omega

/-- Witness for C3 at a concrete breaker with threshold 2 and recovery
timeout 60. -/
theorem c3_circuit_breaker_witness :
    ((⟨2, 60, 1, Option.some 0, .closed, 0⟩ : CircuitBreaker).call 1
        false).2.state = .opened ∧
    (⟨2, 60, 2, Option.some 0, .opened, 0⟩ : CircuitBreaker).call 10 true =
      (false, ⟨2, 60, 2, Option.some 0, .opened, 0⟩) ∧
    ((⟨2, 60, 2, Option.some 0, .opened, 0⟩ : CircuitBreaker).call 61
        true).1 = true ∧
    (let cb3 :=
      ((((⟨2, 60, 2, Option.some 0, .halfOpen, 0⟩ : CircuitBreaker).call 62
        true).2.call 63 true).2.call 64 true).2
     cb3.state = .closed ∧ cb3.failure_count = 0 ∧ cb3.success_count = 0) ∧
    ((⟨2, 60, 2, Option.some 0, .halfOpen, 1⟩ : CircuitBreaker).call 65
        false).2.state = .opened ∧
    (2 ≤ ((⟨2, 60, 2, Option.some 0, .halfOpen, 1⟩ : CircuitBreaker).call 65
        false).2.failure_count) := by
  refine ⟨?_, ?_, ?_, ?_, ?_, ?_⟩
  · exact (c3_circuit_breaker.1
      (⟨2, 60, 1, Option.some 0, .closed, 0⟩ : CircuitBreaker) 1 rfl).mpr
      (by norm_num)
  · exact c3_circuit_breaker.2.1
      (⟨2, 60, 2, Option.some 0, .opened, 0⟩ : CircuitBreaker) 10 0 true rfl
      rfl (by norm_num)
  · exact (c3_circuit_breaker.2.2.1
      (⟨2, 60, 2, Option.some 0, .opened, 0⟩ : CircuitBreaker) 61 0 true rfl
      rfl (by norm_num)).1
  · exact c3_circuit_breaker.2.2.2.1
      (⟨2, 60, 2, Option.some 0, .halfOpen, 0⟩ : CircuitBreaker) 62 63 64 rfl
      rfl
  · exact (c3_circuit_breaker.2.2.2.2.1
      (⟨2, 60, 2, Option.some 0, .halfOpen, 1⟩ : CircuitBreaker) 65 rfl
      (by norm_num)).2
  · exact c3_circuit_breaker.2.2.2.2.2
      (⟨2, 60, 2, Option.some 0, .halfOpen, 1⟩ : CircuitBreaker) 65 false
      (fun _ => by norm_num)
      (by simp [CircuitBreaker.call, CircuitBreaker.on_failure])

/-- C8 counterexample: a cached upstream client built with
`retry_max_attempts = 3` is *reused* for a request whose configuration
asks for `retry_max_attempts = 5` (all other parameters equal) — the
staleness check `_should_recreate_cloudflare_client` never compares the
captured max-retry count, contradicting the claim that the cached
instance is returned exactly when every captured construction parameter
matches. -/
theorem c8_max_retry_not_checked_counterexample :
    (get_cloudflare_client
        (Option.some ⟨⟨"t", "a", "n", "ns"⟩, 30, 3⟩)
        ⟨⟨"t", "a", "n", "ns"⟩, 30, 5, "tbl"⟩).2 = true ∧
    (3 : Nat) ≠ 5 := by
  refine ⟨?_, by decide⟩
  simp [get_cloudflare_client, should_recreate_cloudflare_client]

/-- C8 (amended): the upstream client's staleness check compares exactly
the credential fields `api_token`, `account_id`, `kv_namespace_id` and the
timeout — the cached instance is reused iff those four match, regardless
of the max-retry count; the store client's check compares exactly the
table name and the max-retry count; an empty slot always builds a new
client from the requested parameters. -/
theorem c8_staleness_amended :
    (∀ (c : CFClientState) (cfg : PoolConfig),
      (get_cloudflare_client (Option.some c) cfg).2 = true ↔
        (c.credentials.api_token = cfg.cloudflare_credentials.api_token ∧
         c.credentials.account_id = cfg.cloudflare_credentials.account_id ∧
         c.credentials.kv_namespace_id =
           cfg.cloudflare_credentials.kv_namespace_id ∧
         c.timeout = cfg.api_timeout_seconds)) ∧
    (∀ (c : DDBClientState) (cfg : PoolConfig),
      (get_dynamodb_client (Option.some c) cfg).2 = true ↔
        (c.table_name = cfg.dynamodb_table_name ∧
         c.max_retries = cfg.retry_max_attempts)) ∧
    (∀ cfg : PoolConfig,
      (get_cloudflare_client Option.none cfg).2 = false ∧
      (get_cloudflare_client Option.none cfg).1 =
        ⟨cfg.cloudflare_credentials, cfg.api_timeout_seconds,
          cfg.retry_max_attempts⟩ ∧
      (get_dynamodb_client Option.none cfg).2 = false) ∧
    (∀ (c : CFClientState) (cfg : PoolConfig),
      should_recreate_cloudflare_client (Option.some c) cfg = true →
        (get_cloudflare_client (Option.some c) cfg).1 =
          ⟨cfg.cloudflare_credentials, cfg.api_timeout_seconds,
            cfg.retry_max_attempts⟩) ∧
    (∀ (c : DDBClientState) (cfg : PoolConfig),
      should_recreate_dynamodb_client (Option.some c) cfg = true →
        (get_dynamodb_client (Option.some c) cfg).1 =
          dynamodb_client_init cfg.dynamodb_table_name cfg.retry_max_attempts) := by
  refine ⟨?_, ?_, ?_, ?_, ?_⟩
  · intro c cfg
    by_cases h : should_recreate_cloudflare_client (Option.some c) cfg = true <;>
      simp [get_cloudflare_client, h] <;>
      simp [should_recreate_cloudflare_client] at h <;>
      tauto
  · intro c cfg
    by_cases h : should_recreate_dynamodb_client (Option.some c) cfg = true <;>
      simp [get_dynamodb_client, h] <;>
      simp [should_recreate_dynamodb_client] at h <;>
      tauto
  · intro cfg
    simp [get_cloudflare_client, get_dynamodb_client]
  · intro c cfg h
    simp [get_cloudflare_client, h]
  · intro c cfg h
    simp [get_dynamodb_client, h]

/-- Witness for the amended C8 at concrete cached clients and configs. -/
theorem c8_staleness_amended_witness :
    (get_cloudflare_client
        (Option.some ⟨⟨"t", "a", "n", "ns"⟩, 30, 3⟩)
        ⟨⟨"t", "a", "n", "ns"⟩, 30, 3, "tbl"⟩).2 = true ∧
    (get_dynamodb_client (Option.some ⟨"tbl", 3⟩)
        ⟨⟨"t", "a", "n", "ns"⟩, 30, 3, "tbl2"⟩).2 = false := by
  constructor
  · exact (c8_staleness_amended.1 _ _).mpr ⟨rfl, rfl, rfl, rfl⟩
  · have h := c8_staleness_amended.2.1
      (⟨"tbl", 3⟩ : DDBClientState) ⟨⟨"t", "a", "n", "ns"⟩, 30, 3, "tbl2"⟩
    revert h
    cases hb : (get_dynamodb_client (Option.some ⟨"tbl", 3⟩)
        ⟨⟨"t", "a", "n", "ns"⟩, 30, 3, "tbl2"⟩).2
    · intro _; rfl
    · intro h
      exact absurd ((h.mp rfl).1) (by decide)

end CFSync
